import Mathlib

/-!
Shallow embedding of the device-assignment-api repository (Go).

The embedding models:
* the data model (`Device`, `Assignment`) from `internal/models`;
* the PostgreSQL repositories (`internal/database/device_repository.go`,
  `internal/database/assignment_repository.go`) as pure functions over an
  explicit database state `DBState`, following the SQL statements;
* the service layer (`internal/services/device_service.go`);
* the HTTP handler for unassignment (`internal/handlers`, DeviceHandler);
* certificate-identity extraction (`pkg/auth`, certificate.go);
* JWT issue/verify (`pkg/auth/jwt.go`), with signatures modelled by the
  key the token was signed with;
* a two-thread interleaving semantics for the assignment operation, whose
  atomic steps are the three storage calls made by `AssignDeviceToUser`
  (device lookup, active-assignment check, insert).

Timestamps are natural numbers; UUIDs are natural numbers supplied
explicitly by the caller (modelling `uuid.New()` / `time.Now()`).
-/

namespace DeviceAssignment

/-- `models.Device`: id, certificate serial number, issuer CN, creation time. -/
structure Device where
  id : Nat
  certificateSerialNumber : String
  certificateIssuerCN : String
  createdAt : Nat
deriving DecidableEq, Repr

/-- `models.Assignment`: one ownership interval; `unassignedAt = none` means
the interval is currently active. -/
structure Assignment where
  id : Nat
  deviceId : Nat
  userId : String
  assignedAt : Nat
  unassignedAt : Option Nat
deriving DecidableEq, Repr

/-- `Assignment.IsActive`: true when `unassigned_at IS NULL`. -/
def Assignment.isActive (a : Assignment) : Bool :=
  a.unassignedAt.isNone

/-- The backing store: the `devices` and `assignments` tables. -/
structure DBState where
  devices : List Device
  assignments : List Assignment
deriving DecidableEq, Repr

/-- `SELECT ... FROM devices WHERE id = $1` (`GetDeviceByID`). -/
def getDeviceById (s : DBState) (d : Nat) : Option Device :=
  s.devices.find? (fun dev => dev.id == d)

/-- `SELECT ... FROM devices WHERE certificate_serial_number = $1`
(`GetDeviceBySerialNumber`). -/
def getDeviceBySerialNumber (s : DBState) (sn : String) : Option Device :=
  s.devices.find? (fun dev => dev.certificateSerialNumber == sn)

/-- `INSERT INTO devices ...` (`CreateDevice`); the serial-uniqueness
constraint is not modelled here because the service only inserts after a
failed lookup in the sequential semantics. -/
def createDevice (s : DBState) (dev : Device) : DBState :=
  { s with devices := s.devices ++ [dev] }

/-- `INSERT INTO assignments ...` (`CreateAssignment`).  The schema
(`createAssignmentsTable` plus `createIndexes`) declares no uniqueness
constraint over active rows — `idx_assignments_active` is a plain partial
index — so the insert succeeds regardless of existing active rows. -/
def createAssignment (s : DBState) (a : Assignment) : DBState :=
  { s with assignments := s.assignments ++ [a] }

/-- `SELECT EXISTS(SELECT 1 FROM assignments WHERE device_id = $1 AND
unassigned_at IS NULL)` (`IsDeviceAssigned`). -/
def isDeviceAssigned (s : DBState) (d : Nat) : Bool :=
  s.assignments.any (fun a => a.deviceId == d && a.isActive)

/-- `SELECT EXISTS(SELECT 1 FROM assignments WHERE device_id = $1 AND
user_id = $2 AND unassigned_at IS NULL)` (`IsDeviceAssignedToUser`). -/
def isDeviceAssignedToUser (s : DBState) (d : Nat) (u : String) : Bool :=
  s.assignments.any (fun a => a.deviceId == d && a.userId == u && a.isActive)

/-- Number of active assignment rows for a device. -/
def countActive (s : DBState) (d : Nat) : Nat :=
  s.assignments.countP (fun a => a.deviceId == d && a.isActive)

/-- `SELECT ... FROM assignments WHERE device_id = $1 AND unassigned_at IS
NULL ORDER BY assigned_at DESC LIMIT 1` (`GetActiveAssignmentByDeviceID`):
the active row with the largest `assigned_at`. -/
def getActiveAssignmentByDeviceId (s : DBState) (d : Nat) : Option Assignment :=
  (s.assignments.filter (fun a => a.deviceId == d && a.isActive)).foldl
    (fun acc a =>
      match acc with
      | none => some a
      | some b => if b.assignedAt < a.assignedAt then some a else some b)
    none

/-- The spec's `currentOwner(deviceId) -> userId | None`. -/
def currentOwner (s : DBState) (d : Nat) : Option String :=
  (getActiveAssignmentByDeviceId s d).map (fun a => a.userId)

/-- Outcome of `AssignmentRepositoryImpl.UnassignDevice`. -/
inductive RepoUnassignResult where
  | ok
  | errNoActiveAssignment
deriving DecidableEq, Repr

/-- `UPDATE assignments SET unassigned_at = NOW() WHERE device_id = $1 AND
unassigned_at IS NULL`, failing when `RowsAffected() == 0`
(`AssignmentRepositoryImpl.UnassignDevice`).  Every active row for the
device is updated by the single statement. -/
def repoUnassignDevice (s : DBState) (d : Nat) (now : Nat) :
    RepoUnassignResult × DBState :=
  if countActive s d == 0 then
    (.errNoActiveAssignment, s)
  else
    (.ok,
      { s with
        assignments := s.assignments.map (fun a =>
          if a.deviceId == d && a.isActive then
            { a with unassignedAt := some now }
          else a) })

/-- Outcome of `DeviceService.AssignDeviceToUser`. -/
inductive AssignResult where
  | ok
  | errDeviceNotFound
  | errAlreadyAssigned
deriving DecidableEq, Repr

/-- `DeviceService.AssignDeviceToUser`, run sequentially: device lookup,
active-assignment check, then insert of `models.NewAssignment(deviceID,
userID)` with a caller-supplied fresh id and clock value.  On failure no
storage write has happened, so the state is returned unchanged. -/
def assignDeviceToUser (s : DBState) (d : Nat) (u : String)
    (freshId now : Nat) : AssignResult × DBState :=
  match getDeviceById s d with
  | none => (.errDeviceNotFound, s)
  | some _ =>
    if isDeviceAssigned s d then
      (.errAlreadyAssigned, s)
    else
      (.ok, createAssignment s
        { id := freshId, deviceId := d, userId := u,
          assignedAt := now, unassignedAt := none })

/-- Outcome of `DeviceService.UnassignDevice`. -/
inductive SvcUnassignResult where
  | ok
  | errDeviceNotFound
  | errUnassignFailed
deriving DecidableEq, Repr

/-- `DeviceService.UnassignDevice`: device lookup, then the repository
update. -/
def svcUnassignDevice (s : DBState) (d : Nat) (now : Nat) :
    SvcUnassignResult × DBState :=
  match getDeviceById s d with
  | none => (.errDeviceNotFound, s)
  | some _ =>
    match repoUnassignDevice s d now with
    | (.ok, s') => (.ok, s')
    | (.errNoActiveAssignment, s') => (.errUnassignFailed, s')

/-- `DeviceService.CanUserAccessDevice`. -/
def canUserAccessDevice (s : DBState) (d : Nat) (u : String) : Bool :=
  isDeviceAssignedToUser s d u

/-- HTTP outcome of `DeviceHandler.UnassignDevice`: 200, the merged
404 "Device not found or not assigned to you", or 500. -/
inductive UnassignOutcome where
  | ok
  | notFound
  | serverError
deriving DecidableEq, Repr

/-- `DeviceHandler.UnassignDevice` (handlers/device_handler): the
authorization gate `CanUserAccessDevice` runs first; a caller who is not
the current owner — or names a device that does not exist — receives the
same 404 response; only then is `DeviceService.UnassignDevice` invoked. -/
def handlerUnassignDevice (s : DBState) (d : Nat) (u : String) (now : Nat) :
    UnassignOutcome × DBState :=
  if canUserAccessDevice s d u then
    match svcUnassignDevice s d now with
    | (.ok, s') => (.ok, s')
    | (_, s') => (.serverError, s')
  else
    (.notFound, s)

/-! ### Certificate identity extraction (`pkg/auth`, certificate handling) -/

/-- The fields of an `x509.Certificate` the code reads: `SerialNumber` (a
`*big.Int`, `none` models a nil pointer), `Issuer.CommonName` and
`Subject.CommonName`. -/
structure X509Certificate where
  serialNumber : Option Nat
  issuerCN : String
  subjectCN : String
deriving DecidableEq, Repr

/-- One hexadecimal digit, uppercase (as produced by Go's `%X` verb). -/
def hexDigitUpper (n : Nat) : Char :=
  if n < 10 then Char.ofNat (48 + n) else Char.ofNat (55 + n)

/-- Digits of `n` in base 16, most significant first, uppercase;
`%X` of a `big.Int` (no leading zeros, `"0"` for zero). -/
def toHexDigits (n : Nat) : List Char :=
  if _h : n < 16 then [hexDigitUpper n]
  else toHexDigits (n / 16) ++ [hexDigitUpper (n % 16)]
termination_by n
decreasing_by
  exact Nat.div_lt_self (Nat.pos_of_ne_zero (by omega)) (by omega)

/-- `formatSerialNumber`: `""` for a nil serial, otherwise
`fmt.Sprintf("%X", serialNumber)`. -/
def formatSerialNumber : Option Nat → String
  | none => ""
  | some n => String.mk (toHexDigits n)

/-- `extractCommonName`: the identity function in the source. -/
def extractCommonName (cn : String) : String := cn

/-- `auth.CertificateInfo`. -/
structure CertificateInfo where
  serialNumber : String
  issuerCN : String
  subjectCN : String
  isValid : Bool
deriving DecidableEq, Repr

/-- `auth.ExtractCertificateInfo`. -/
def extractCertificateInfo : Option X509Certificate → CertificateInfo
  | none =>
    { serialNumber := "", issuerCN := "", subjectCN := "", isValid := false }
  | some c =>
    { serialNumber := formatSerialNumber c.serialNumber
      issuerCN := extractCommonName c.issuerCN
      subjectCN := extractCommonName c.subjectCN
      isValid := true }

/-- The single failure of the extraction pipeline (`InvalidCertificate`). -/
inductive CertError where
  | invalidCertificate
deriving DecidableEq, Repr

/-- `auth.ValidateCertificate`: nil certificate, nil serial number, or
empty issuer common name fail; anything else passes. -/
def validateCertificate : Option X509Certificate → Except CertError Unit
  | none => .error .invalidCertificate
  | some c =>
    if c.serialNumber.isNone then .error .invalidCertificate
    else if c.issuerCN == "" then .error .invalidCertificate
    else .ok ()

/-- The certificate middleware's extraction pipeline
(`CertificateAuthMiddleware.Authenticate`): `ValidateCertificate`, then
`ExtractCertificateInfo`, then the `!certInfo.IsValid` guard. -/
def certAuthExtract (c : Option X509Certificate) :
    Except CertError CertificateInfo :=
  match validateCertificate c with
  | .error e => .error e
  | .ok _ =>
    let info := extractCertificateInfo c
    if !info.isValid then .error .invalidCertificate else .ok info

/-! ### Device authentication / registration (`DeviceService`) -/

/-- `AuthenticateAndRegisterDevice`: rejects nil/invalid certificate info,
looks the device up by serial number, and otherwise registers
`models.NewDevice(serial, issuerCN)` with a caller-supplied fresh id and
clock value.  Returns the device together with the (possibly updated)
state. -/
def authenticateAndRegisterDevice (s : DBState)
    (certInfo : Option CertificateInfo) (freshId now : Nat) :
    Except CertError (DBState × Device) :=
  match certInfo with
  | none => .error .invalidCertificate
  | some ci =>
    if !ci.isValid then .error .invalidCertificate
    else
      match getDeviceBySerialNumber s ci.serialNumber with
      | some dev => .ok (s, dev)
      | none =>
        let dev : Device :=
          { id := freshId
            certificateSerialNumber := ci.serialNumber
            certificateIssuerCN := ci.issuerCN
            createdAt := now }
        .ok (createDevice s dev, dev)

/-! ### JWT issue / verify (`pkg/auth/jwt.go`) -/

/-- JWT signing algorithms relevant to the code's keyfunc check. -/
inductive SigAlg where
  | HS256
  | HS384
  | HS512
  | RS256
  | ES256
  | noneAlg
deriving DecidableEq, Repr

/-- Go's `token.Method.(*jwt.SigningMethodHMAC)` type assertion: true for
the whole HMAC family. -/
def SigAlg.isHMAC : SigAlg → Bool
  | .HS256 => true
  | .HS384 => true
  | .HS512 => true
  | _ => false

/-- A parsed token: its header algorithm, the key its signature was
produced with (the signature verifies exactly when this equals the
verifier's secret), and its claims (`""` models a missing `user_id`). -/
structure Token where
  alg : SigAlg
  signedKey : String
  userId : String
  issuer : String
  issuedAt : Nat
  expiresAt : Nat
  notBefore : Nat
deriving DecidableEq, Repr

/-- `auth.JWTManager`: signing secret, token lifetime, issuer. -/
structure JWTManager where
  secretKey : String
  tokenDuration : Nat
  issuer : String
deriving DecidableEq, Repr

/-- `auth.Claims` as returned by `ValidateToken`. -/
structure Claims where
  userId : String
  issuer : String
  issuedAt : Nat
  expiresAt : Nat
  notBefore : Nat
deriving DecidableEq, Repr

/-- The single failure of token validation (`InvalidToken`). -/
inductive TokenError where
  | invalidToken
deriving DecidableEq, Repr

/-- `JWTManager.GenerateToken` at clock value `now`: HS256, signed with the
manager's secret, `iat = nbf = now`, `exp = now + tokenDuration`,
`iss =` the configured issuer. -/
def generateToken (j : JWTManager) (userId : String) (now : Nat) : Token :=
  { alg := .HS256
    signedKey := j.secretKey
    userId := userId
    issuer := j.issuer
    issuedAt := now
    expiresAt := now + j.tokenDuration
    notBefore := now }

/-- The claims carried by a token. -/
def tokenClaims (t : Token) : Claims :=
  { userId := t.userId, issuer := t.issuer, issuedAt := t.issuedAt,
    expiresAt := t.expiresAt, notBefore := t.notBefore }

/-- `JWTManager.ValidateToken` at clock value `now`.  In order: the keyfunc
rejects any non-HMAC method; the signature must verify under the manager's
secret; the registered-claims validation rejects expired (`exp <= now`) and
not-yet-valid (`now < nbf`) tokens; finally an empty `user_id` is
rejected. -/
def validateToken (j : JWTManager) (t : Token) (now : Nat) :
    Except TokenError Claims :=
  if !t.alg.isHMAC then .error .invalidToken
  else if t.signedKey != j.secretKey then .error .invalidToken
  else if t.expiresAt ≤ now then .error .invalidToken
  else if now < t.notBefore then .error .invalidToken
  else if t.userId == "" then .error .invalidToken
  else .ok (tokenClaims t)

/-! ### Interleaving semantics for concurrent `AssignDeviceToUser` calls

Each inbound request runs `AssignDeviceToUser` as three storage calls —
`GetDeviceByID`, `IsDeviceAssigned`, `CreateAssignment` — each atomic at
the store, with nothing serializing the sequence (§5 of the spec: no
in-process lock, and the schema has no uniqueness constraint over active
assignment rows). -/

/-- The inputs of one in-flight `AssignDeviceToUser` call. -/
structure AssignCall where
  deviceId : Nat
  userId : String
  freshId : Nat
  now : Nat
deriving DecidableEq, Repr

/-- Program counter of an in-flight `AssignDeviceToUser` call: before the
device lookup, after it, after the active-assignment check, or finished
with a result. -/
inductive AssignPC where
  | start
  | deviceOk
  | checkOk
  | finished (r : AssignResult)
deriving DecidableEq, Repr

/-- One in-flight call: its inputs and its program counter. -/
structure AssignThread where
  call : AssignCall
  pc : AssignPC
deriving DecidableEq, Repr

/-- One atomic storage step of an in-flight `AssignDeviceToUser` call. -/
def assignStep (s : DBState) (t : AssignThread) : DBState × AssignThread :=
  match t.pc with
  | .start =>
    match getDeviceById s t.call.deviceId with
    | none => (s, { t with pc := .finished .errDeviceNotFound })
    | some _ => (s, { t with pc := .deviceOk })
  | .deviceOk =>
    if isDeviceAssigned s t.call.deviceId then
      (s, { t with pc := .finished .errAlreadyAssigned })
    else
      (s, { t with pc := .checkOk })
  | .checkOk =>
    (createAssignment s
      { id := t.call.freshId, deviceId := t.call.deviceId,
        userId := t.call.userId, assignedAt := t.call.now,
        unassignedAt := none },
      { t with pc := .finished .ok })
  | .finished _ => (s, t)

/-- Run two in-flight assignment calls under a schedule: `false` steps the
first thread, `true` the second. -/
def runSchedule (s : DBState) (t1 t2 : AssignThread) :
    List Bool → DBState × AssignThread × AssignThread
  | [] => (s, t1, t2)
  | false :: rest =>
    let (s', t1') := assignStep s t1
    runSchedule s' t1' t2 rest
  | true :: rest =>
    let (s', t2') := assignStep s t2
    runSchedule s' t1 t2' rest

/-! ### Helper lemmas -/

theorem getDeviceById_createAssignment (s : DBState) (a : Assignment) (d : Nat) :
    getDeviceById (createAssignment s a) d = getDeviceById s d := rfl

theorem isDeviceAssigned_createAssignment (s : DBState) (a : Assignment) (d : Nat) :
    isDeviceAssigned (createAssignment s a) d
      = (isDeviceAssigned s d || (a.deviceId == d && a.isActive)) := by
  simp [isDeviceAssigned, createAssignment, List.any_append]

theorem isDeviceAssignedToUser_createAssignment (s : DBState) (a : Assignment)
    (d : Nat) (u : String) :
    isDeviceAssignedToUser (createAssignment s a) d u
      = (isDeviceAssignedToUser s d u
          || (a.deviceId == d && a.userId == u && a.isActive)) := by
  simp [isDeviceAssignedToUser, createAssignment, List.any_append]

theorem countActive_createAssignment (s : DBState) (a : Assignment) (d : Nat) :
    countActive (createAssignment s a) d
      = countActive s d + (if a.deviceId == d && a.isActive then 1 else 0) := by
  simp [countActive, createAssignment, List.countP_append, List.countP_singleton]

theorem isDeviceAssigned_eq_false_iff (s : DBState) (d : Nat) :
    isDeviceAssigned s d = false ↔ countActive s d = 0 := by
  simp [isDeviceAssigned, countActive, List.countP_eq_zero, List.any_eq_false]

theorem currentOwner_eq_none_of_countActive_zero (s : DBState) (d : Nat)
    (h : countActive s d = 0) : currentOwner s d = none := by
  have hfil : s.assignments.filter (fun a => a.deviceId == d && a.isActive) = [] := by
    rw [List.filter_eq_nil_iff]
    intro a ha
    have := List.countP_eq_zero.mp h a ha
    simpa using this
  simp [currentOwner, getActiveAssignmentByDeviceId, hfil]

theorem devices_repoUnassignDevice (s : DBState) (d : Nat) (now : Nat) :
    (repoUnassignDevice s d now).2.devices = s.devices := by
  unfold repoUnassignDevice
  split <;> rfl

theorem countActive_repoUnassignDevice (s : DBState) (d : Nat) (now : Nat)
    (h : countActive s d ≠ 0) :
    countActive (repoUnassignDevice s d now).2 d = 0 := by
  unfold repoUnassignDevice
  rw [if_neg (by simpa using h)]
  simp only [countActive, List.countP_eq_zero]
  intro a ha
  rcases List.mem_map.mp ha with ⟨b, _, hb⟩
  by_cases hcond : b.deviceId == d && b.isActive
  · rw [if_pos hcond] at hb
    subst hb
    simp [Assignment.isActive]
  · rw [if_neg hcond] at hb
    subst hb
    simpa using hcond

/-- An uppercase hexadecimal digit: `0`–`9` or `A`–`F`. -/
def isUpperHexDigit (ch : Char) : Bool :=
  (48 ≤ ch.toNat && ch.toNat ≤ 57) || (65 ≤ ch.toNat && ch.toNat ≤ 70)

theorem isUpperHexDigit_hexDigitUpper (m : Nat) (h : m < 16) :
    isUpperHexDigit (hexDigitUpper m) = true := by
  interval_cases m <;> decide

theorem toHexDigits_upperHex (n : Nat) :
    ∀ ch ∈ toHexDigits n, isUpperHexDigit ch = true := by
  induction n using Nat.strong_induction_on with
  | _ n ih =>
    rw [toHexDigits.eq_def]
    split
    · intro ch hch
      rw [List.mem_singleton] at hch
      subst hch
      exact isUpperHexDigit_hexDigitUpper n (by omega)
    · intro ch hch
      rcases List.mem_append.mp hch with hch | hch
      · exact ih (n / 16)
          (Nat.div_lt_self (Nat.pos_of_ne_zero (by omega)) (by omega)) ch hch
      · rw [List.mem_singleton] at hch
        subst hch
        exact isUpperHexDigit_hexDigitUpper (n % 16) (Nat.mod_lt n (by omega))

/-! ### Claim theorems -/

/-- C3: the extraction pipeline (`ValidateCertificate` followed by
`ExtractCertificateInfo`, as composed by the certificate middleware) fails
with `InvalidCertificate` if and only if the certificate is absent, its
serial number is unset, or its issuer common name is empty; otherwise it
returns the extracted device identity. -/
theorem certAuthExtract_spec (c : Option X509Certificate) :
    (certAuthExtract c = .error .invalidCertificate ↔
      c = none ∨ ∃ cert, c = some cert
        ∧ (cert.serialNumber = none ∨ cert.issuerCN = ""))
    ∧ (∀ cert : X509Certificate, c = some cert → cert.serialNumber ≠ none →
        cert.issuerCN ≠ "" →
        certAuthExtract c = .ok (extractCertificateInfo (some cert))) := by
  constructor
  · cases c with
    | none => simp [certAuthExtract, validateCertificate]
    | some cert =>
      by_cases hsn : cert.serialNumber = none
      · simp [certAuthExtract, validateCertificate, hsn]
      · by_cases hcn : cert.issuerCN = ""
        · simp [certAuthExtract, validateCertificate,
            Option.isNone_iff_eq_none, hsn, hcn]
        · simp [certAuthExtract, validateCertificate, extractCertificateInfo,
            Option.isNone_iff_eq_none, hsn, hcn]
  · intro cert hc hsn hcn
    subst hc
    simp [certAuthExtract, validateCertificate, extractCertificateInfo,
      Option.isNone_iff_eq_none, hsn, hcn]

/-- C3 witness: a concrete certificate with serial `0xABC` and issuer
`TestCA` extracts successfully. -/
theorem certAuthExtract_spec_witness :
    certAuthExtract (some ⟨some 2748, "TestCA", "dev"⟩)
      = .ok (extractCertificateInfo (some ⟨some 2748, "TestCA", "dev"⟩)) :=
  (certAuthExtract_spec (some ⟨some 2748, "TestCA", "dev"⟩)).2
    ⟨some 2748, "TestCA", "dev"⟩ rfl (by decide) (by decide)

/-- C9: two certificates whose serial numbers are numerically equal
normalize to the same serial-number string, and that string is an
uppercase hexadecimal rendering (every character a digit or `A`–`F`), so
both certificates map to the same device identity key. -/
theorem serialNumber_normalization (c1 c2 : X509Certificate) (n : Nat)
    (h1 : c1.serialNumber = some n) (h2 : c2.serialNumber = some n) :
    (extractCertificateInfo (some c1)).serialNumber
      = (extractCertificateInfo (some c2)).serialNumber
    ∧ ∀ ch ∈ (extractCertificateInfo (some c1)).serialNumber.toList,
        isUpperHexDigit ch = true := by
  constructor
  · simp [extractCertificateInfo, h1, h2]
  · intro ch hch
    simp only [extractCertificateInfo, formatSerialNumber, h1] at hch
    exact toHexDigits_upperHex n ch hch

/-- C9 witness: serial value 2748 renders as `"ABC"` from two different
certificates, and each character is an uppercase hexadecimal digit. -/
theorem serialNumber_normalization_witness :
    (extractCertificateInfo (some ⟨some 2748, "CA1", "x"⟩)).serialNumber
      = (extractCertificateInfo (some ⟨some 2748, "CA2", "y"⟩)).serialNumber
    ∧ ∀ ch ∈ (extractCertificateInfo
        (some ⟨some 2748, "CA1", "x"⟩)).serialNumber.toList,
        isUpperHexDigit ch = true :=
  serialNumber_normalization ⟨some 2748, "CA1", "x"⟩ ⟨some 2748, "CA2", "y"⟩
    2748 rfl rfl

/-- C2 counterexample: a token whose header algorithm (HS384) differs from
the scheme tokens are issued with (HS256), signed with the correct secret
and otherwise valid, is accepted by `validateToken` rather than rejected —
the keyfunc only rejects non-HMAC methods. -/
theorem validateToken_accepts_hs384 :
    Token.alg ⟨.HS384, "secret", "alice", "iss", 0, 10, 0⟩
        ≠ (generateToken ⟨"secret", 10, "iss"⟩ "alice" 0).alg
    ∧ validateToken ⟨"secret", 10, "iss"⟩
        ⟨.HS384, "secret", "alice", "iss", 0, 10, 0⟩ 5
        = .ok ⟨"alice", "iss", 0, 10, 0⟩ :=
  ⟨by decide, rfl⟩

/-- C2 (amended): `validateToken` fails with `InvalidToken` exactly when
the signing algorithm is outside the HMAC family, the signature is
invalid, the token is expired, the token is not yet valid, or the `userId`
claim is empty or absent; it returns the token's claims otherwise. -/
theorem validateToken_spec (j : JWTManager) (t : Token) (now : Nat) :
    (validateToken j t now = .error .invalidToken ↔
      (t.alg.isHMAC = false ∨ t.signedKey ≠ j.secretKey ∨ t.expiresAt ≤ now
        ∨ now < t.notBefore ∨ t.userId = ""))
    ∧ (validateToken j t now = .ok (tokenClaims t) ↔
      ¬(t.alg.isHMAC = false ∨ t.signedKey ≠ j.secretKey ∨ t.expiresAt ≤ now
        ∨ now < t.notBefore ∨ t.userId = "")) := by
  unfold validateToken
  by_cases halg : t.alg.isHMAC
  · by_cases hkey : t.signedKey = j.secretKey
    · by_cases hexp : t.expiresAt ≤ now
      · simp [halg, hkey, hexp]
      · by_cases hnbf : now < t.notBefore
        · simp [halg, hkey, hexp, hnbf]
        · by_cases huid : t.userId = ""
          · simp [halg, hkey, hexp, hnbf, huid]
          · simp [halg, hkey, hexp, hnbf, huid]
    · simp [halg, hkey]
  · simp [halg]

/-- C2 witness: a token with a non-HMAC algorithm (RS256) is rejected. -/
theorem validateToken_spec_witness :
    validateToken ⟨"k", 5, "i"⟩ ⟨.RS256, "k", "u", "i", 0, 5, 0⟩ 1
      = .error .invalidToken :=
  (validateToken_spec ⟨"k", 5, "i"⟩ ⟨.RS256, "k", "u", "i", 0, 5, 0⟩ 1).1.mpr
    (Or.inl rfl)

/-- C8: `generateToken` issues claims with `issuedAt = now`,
`notBefore = now`, `expiresAt = now + lifetime` and the configured issuer;
for a nonempty user id and positive lifetime `T`, the token verifies at
`issuedAt + T / 2` and fails with `InvalidToken` at `issuedAt + T + 1`. -/
theorem token_lifecycle (j : JWTManager) (u : String) (now : Nat)
    (hT : 0 < j.tokenDuration) (hu : u ≠ "") :
    (generateToken j u now).issuedAt = now
    ∧ (generateToken j u now).notBefore = now
    ∧ (generateToken j u now).expiresAt = now + j.tokenDuration
    ∧ (generateToken j u now).issuer = j.issuer
    ∧ validateToken j (generateToken j u now) (now + j.tokenDuration / 2)
        = .ok (tokenClaims (generateToken j u now))
    ∧ validateToken j (generateToken j u now) (now + j.tokenDuration + 1)
        = .error .invalidToken := by
  have hdiv : j.tokenDuration / 2 < j.tokenDuration :=
    Nat.div_lt_self hT (by omega)
  refine ⟨rfl, rfl, rfl, rfl, ?_, ?_⟩
  · rw [((validateToken_spec j (generateToken j u now)
      (now + j.tokenDuration / 2)).2).mpr]
    push_neg
    refine ⟨by simp [generateToken, SigAlg.isHMAC], by simp [generateToken],
      by simp [generateToken]; omega, by simp [generateToken], by
        simp [generateToken]; exact hu⟩
  · rw [((validateToken_spec j (generateToken j u now)
      (now + j.tokenDuration + 1)).1).mpr]
    refine Or.inr (Or.inr (Or.inl ?_))
    simp [generateToken]

/-- C8 witness: a token for `alice` with lifetime 10 issued at 100
verifies at 105 and is rejected at 111. -/
theorem token_lifecycle_witness :
    0 < (10 : Nat) ∧ "alice" ≠ ""
    ∧ validateToken ⟨"k", 10, "iss"⟩ (generateToken ⟨"k", 10, "iss"⟩ "alice" 100) 105
        = .ok (tokenClaims (generateToken ⟨"k", 10, "iss"⟩ "alice" 100))
    ∧ validateToken ⟨"k", 10, "iss"⟩ (generateToken ⟨"k", 10, "iss"⟩ "alice" 100) 111
        = .error .invalidToken := by
  have h := token_lifecycle ⟨"k", 10, "iss"⟩ "alice" 100 (by decide) (by decide)
  exact ⟨by decide, by decide, h.2.2.2.2.1, h.2.2.2.2.2⟩

/-- C5: `AssignDeviceToUser` fails with a device-not-found error when the
device does not exist, fails with a distinct already-assigned error when
the device has an active assignment, and otherwise succeeds by appending
exactly one new active assignment; both failures leave the state
unchanged. -/
theorem assignDeviceToUser_spec (s : DBState) (d : Nat) (u : String)
    (freshId now : Nat) :
    (getDeviceById s d = none →
      assignDeviceToUser s d u freshId now = (.errDeviceNotFound, s))
    ∧ (∀ dev, getDeviceById s d = some dev → isDeviceAssigned s d = true →
      assignDeviceToUser s d u freshId now = (.errAlreadyAssigned, s))
    ∧ (∀ dev, getDeviceById s d = some dev → isDeviceAssigned s d = false →
      assignDeviceToUser s d u freshId now
        = (.ok, createAssignment s ⟨freshId, d, u, now, none⟩)
      ∧ countActive (createAssignment s ⟨freshId, d, u, now, none⟩) d
          = countActive s d + 1)
    ∧ AssignResult.errDeviceNotFound ≠ AssignResult.errAlreadyAssigned := by
  refine ⟨?_, ?_, ?_, by decide⟩
  · intro h
    simp [assignDeviceToUser, h]
  · intro dev hdev hass
    simp [assignDeviceToUser, hdev, hass]
  · intro dev hdev hass
    refine ⟨by simp [assignDeviceToUser, hdev, hass], ?_⟩
    rw [countActive_createAssignment]
    simp [Assignment.isActive]

/-- C5 witness: assigning existing unassigned device 1 to `alice`
appends one active assignment row. -/
theorem assignDeviceToUser_spec_witness :
    assignDeviceToUser ⟨[⟨1, "A", "CA", 0⟩], []⟩ 1 "alice" 10 5
      = (.ok, createAssignment ⟨[⟨1, "A", "CA", 0⟩], []⟩ ⟨10, 1, "alice", 5, none⟩) :=
  ((assignDeviceToUser_spec ⟨[⟨1, "A", "CA", 0⟩], []⟩ 1 "alice" 10 5).2.2.1
    ⟨1, "A", "CA", 0⟩ rfl rfl).1

/-- C10: the repository-level `UnassignDevice` fails with the
no-active-assignment error exactly when the device has zero active rows
(leaving the state unchanged), and whenever it succeeds it deactivates
every active row for the device in the single update, leaving zero active
rows — even from a state with more than one. -/
theorem repoUnassignDevice_spec (s : DBState) (d : Nat) (now : Nat) :
    ((repoUnassignDevice s d now).1 = .errNoActiveAssignment ↔
      countActive s d = 0)
    ∧ ((repoUnassignDevice s d now).1 = .errNoActiveAssignment →
      (repoUnassignDevice s d now).2 = s)
    ∧ ((repoUnassignDevice s d now).1 = .ok →
      countActive (repoUnassignDevice s d now).2 d = 0) := by
  by_cases h : countActive s d = 0
  · refine ⟨by simp [repoUnassignDevice, h], by simp [repoUnassignDevice, h], ?_⟩
    intro hok
    simp [repoUnassignDevice, h] at hok
  · have hb : ¬((countActive s d == 0) = true) := by simpa using h
    refine ⟨?_, ?_, fun _ => countActive_repoUnassignDevice s d now h⟩
    · unfold repoUnassignDevice
      rw [if_neg hb]
      simp [h]
    · intro hctr
      unfold repoUnassignDevice at hctr
      rw [if_neg hb] at hctr
      simp at hctr

/-- C10 witness: from a state with two active rows for device 1 (an
invariant-violating state), the repository update succeeds and leaves
zero active rows. -/
theorem repoUnassignDevice_spec_witness :
    countActive
      (repoUnassignDevice
        ⟨[⟨1, "A", "CA", 0⟩],
         [⟨10, 1, "alice", 5, none⟩, ⟨11, 1, "bob", 6, none⟩]⟩ 1 9).2 1 = 0 :=
  (repoUnassignDevice_spec
    ⟨[⟨1, "A", "CA", 0⟩],
     [⟨10, 1, "alice", 5, none⟩, ⟨11, 1, "bob", 6, none⟩]⟩ 1 9).2.2 rfl

/-- C4: once `AuthenticateAndRegisterDevice` has returned a device for a
serial number, any later call with a valid certificate bearing the same
serial number returns the identical stored record (same id, same
`createdAt`) and leaves the store unchanged — in particular the later
certificate's issuer common name is never written. -/
theorem authenticate_idempotent (s s1 : DBState) (ci ci' : CertificateInfo)
    (d1 : Device) (fid now fid' now' : Nat)
    (h : authenticateAndRegisterDevice s (some ci) fid now = .ok (s1, d1))
    (hv : ci'.isValid = true)
    (hsn : ci'.serialNumber = ci.serialNumber) :
    authenticateAndRegisterDevice s1 (some ci') fid' now' = .ok (s1, d1) := by
  simp only [authenticateAndRegisterDevice] at h ⊢
  by_cases hvi : ci.isValid
  · rw [if_neg (by simp [hvi])] at h
    rw [if_neg (by simp [hv])]
    cases hfind : getDeviceBySerialNumber s ci.serialNumber with
    | some dev =>
      rw [hfind] at h
      cases h
      rw [hsn, hfind]
    | none =>
      rw [hfind] at h
      cases h
      have : getDeviceBySerialNumber (createDevice s
          ⟨fid, ci.serialNumber, ci.issuerCN, now⟩) ci'.serialNumber
          = some ⟨fid, ci.serialNumber, ci.issuerCN, now⟩ := by
        unfold getDeviceBySerialNumber at hfind ⊢
        simp only [createDevice]
        rw [hsn, List.find?_append, hfind]
        simp
      rw [this]
  · rw [if_pos (by simp [hvi])] at h
    cases h

/-- C4 witness: registering serial `"AB"` once and re-authenticating with
a certificate for the same serial but a different issuer returns the
original record and an unchanged store. -/
theorem authenticate_idempotent_witness :
    authenticateAndRegisterDevice
      ⟨[⟨1, "AB", "CA", 0⟩], []⟩ (some ⟨"AB", "OtherCA", "y", true⟩) 2 9
      = .ok (⟨[⟨1, "AB", "CA", 0⟩], []⟩, ⟨1, "AB", "CA", 0⟩) :=
  authenticate_idempotent ⟨[⟨1, "AB", "CA", 0⟩], []⟩ ⟨[⟨1, "AB", "CA", 0⟩], []⟩
    ⟨"AB", "CA", "x", true⟩ ⟨"AB", "OtherCA", "y", true⟩ ⟨1, "AB", "CA", 0⟩
    7 3 2 9 rfl rfl rfl

/-- C6: when a device has a current owner and every active row for it
belongs to that owner, an unassign attempt by any other user yields the
merged 404 outcome with the store unchanged (the assignment stays active),
and the very same outcome is produced for a device with no assignment rows
at all — the two cases are indistinguishable to the caller. -/
theorem unassign_requires_ownership (s : DBState) (d : Nat) (u u' : String)
    (now : Nat)
    (howner : currentOwner s d = some u)
    (hunique : ∀ a ∈ s.assignments, a.deviceId = d → a.isActive = true →
      a.userId = u)
    (hne : u' ≠ u) :
    handlerUnassignDevice s d u' now = (.notFound, s)
    ∧ currentOwner (handlerUnassignDevice s d u' now).2 d = some u
    ∧ (∀ d₀, (∀ a ∈ s.assignments, a.deviceId ≠ d₀) →
        handlerUnassignDevice s d₀ u' now = (.notFound, s)) := by
  have hacc : canUserAccessDevice s d u' = false := by
    unfold canUserAccessDevice isDeviceAssignedToUser
    rw [List.any_eq_false]
    intro a ha
    simp only [Bool.and_eq_true, beq_iff_eq, not_and]
    intro hd hact
    exact absurd (hd.2.symm.trans (hunique a ha hd.1 hact)) hne
  have hmain : handlerUnassignDevice s d u' now = (.notFound, s) := by
    unfold handlerUnassignDevice
    rw [hacc]
    simp
  refine ⟨hmain, by rw [hmain]; exact howner, ?_⟩
  intro d₀ hno
  have hacc0 : canUserAccessDevice s d₀ u' = false := by
    unfold canUserAccessDevice isDeviceAssignedToUser
    rw [List.any_eq_false]
    intro a ha
    simp only [Bool.and_eq_true, beq_iff_eq, not_and]
    intro hd _
    exact absurd hd.1 (hno a ha)
  unfold handlerUnassignDevice
  rw [hacc0]
  simp

/-- C6 witness: device 1 is owned by `alice`; `bob` receives the 404
outcome, the assignment stays active, and a device with no rows (2) gets
the identical response. -/
theorem unassign_requires_ownership_witness :
    handlerUnassignDevice
        ⟨[⟨1, "A", "CA", 0⟩], [⟨7, 1, "alice", 3, none⟩]⟩ 1 "bob" 9
      = (.notFound, ⟨[⟨1, "A", "CA", 0⟩], [⟨7, 1, "alice", 3, none⟩]⟩)
    ∧ handlerUnassignDevice
        ⟨[⟨1, "A", "CA", 0⟩], [⟨7, 1, "alice", 3, none⟩]⟩ 2 "bob" 9
      = (.notFound, ⟨[⟨1, "A", "CA", 0⟩], [⟨7, 1, "alice", 3, none⟩]⟩) := by
  have h := unassign_requires_ownership
    ⟨[⟨1, "A", "CA", 0⟩], [⟨7, 1, "alice", 3, none⟩]⟩ 1 "alice" "bob" 9
    rfl (by decide) (by decide)
  exact ⟨h.1, h.2.2 2 (by decide)⟩

/-- C7: after a successful `assign(d, u)`, an unassignment through the
handler by the owner `u` succeeds, leaves `currentOwner d = none`, and a
subsequent `assign(d, u2)` succeeds. -/
theorem assign_unassign_roundtrip (s s1 : DBState) (d : Nat) (u u2 : String)
    (id1 n1 n2 id3 n3 : Nat)
    (h : assignDeviceToUser s d u id1 n1 = (.ok, s1)) :
    (handlerUnassignDevice s1 d u n2).1 = .ok
    ∧ currentOwner (handlerUnassignDevice s1 d u n2).2 d = none
    ∧ (assignDeviceToUser (handlerUnassignDevice s1 d u n2).2 d u2 id3 n3).1
        = .ok := by
  unfold assignDeviceToUser at h
  cases hdev : getDeviceById s d with
  | none => rw [hdev] at h; simp at h
  | some dev =>
    rw [hdev] at h
    by_cases hass : isDeviceAssigned s d
    · rw [if_pos hass] at h; simp at h
    · rw [if_neg hass] at h
      have hs1 : s1 = createAssignment s ⟨id1, d, u, n1, none⟩ := by
        have := congrArg Prod.snd h
        simpa using this.symm
      have hcnt0 : countActive s d = 0 :=
        (isDeviceAssigned_eq_false_iff s d).mp (by simpa using hass)
      have hcnt1 : countActive s1 d = 1 := by
        rw [hs1, countActive_createAssignment, hcnt0]
        simp [Assignment.isActive]
      have hdev1 : getDeviceById s1 d = some dev := by
        rw [hs1, getDeviceById_createAssignment, hdev]
      have hacc : canUserAccessDevice s1 d u = true := by
        rw [hs1]
        unfold canUserAccessDevice
        rw [isDeviceAssignedToUser_createAssignment]
        simp [Assignment.isActive]
      have hfst : (repoUnassignDevice s1 d n2).1 = .ok := by
        unfold repoUnassignDevice
        rw [if_neg (by simp [hcnt1])]
      cases hre : repoUnassignDevice s1 d n2 with
      | mk r s2 =>
        cases r with
        | errNoActiveAssignment => rw [hre] at hfst; simp at hfst
        | ok =>
          have hsvc : svcUnassignDevice s1 d n2 = (.ok, s2) := by
            unfold svcUnassignDevice
            rw [hdev1, hre]
          have hhand : handlerUnassignDevice s1 d u n2 = (.ok, s2) := by
            unfold handlerUnassignDevice
            rw [hacc, hsvc]
            simp
          have hcnt2 : countActive s2 d = 0 := by
            have hc := countActive_repoUnassignDevice s1 d n2 (by simp [hcnt1])
            rw [hre] at hc
            simpa using hc
          have hdev2 : getDeviceById s2 d = some dev := by
            unfold getDeviceById
            have hd2 : s2.devices = s1.devices := by
              have hdd := devices_repoUnassignDevice s1 d n2
              rw [hre] at hdd
              simpa using hdd
            rw [hd2]
            exact hdev1
          refine ⟨by rw [hhand], ?_, ?_⟩
          · rw [hhand]
            exact currentOwner_eq_none_of_countActive_zero s2 d hcnt2
          · rw [hhand]
            unfold assignDeviceToUser
            rw [hdev2,
              if_neg (by simp [(isDeviceAssigned_eq_false_iff s2 d).mpr hcnt2])]

/-- C7 witness: assign device 1 to `alice`, unassign it as `alice`, and
re-assign to `bob`. -/
theorem assign_unassign_roundtrip_witness :
    (handlerUnassignDevice
        ⟨[⟨1, "A", "CA", 0⟩], [⟨10, 1, "alice", 5, none⟩]⟩ 1 "alice" 9).1 = .ok
    ∧ currentOwner (handlerUnassignDevice
        ⟨[⟨1, "A", "CA", 0⟩], [⟨10, 1, "alice", 5, none⟩]⟩ 1 "alice" 9).2 1
        = none
    ∧ (assignDeviceToUser (handlerUnassignDevice
        ⟨[⟨1, "A", "CA", 0⟩], [⟨10, 1, "alice", 5, none⟩]⟩ 1 "alice" 9).2
        1 "bob" 11 12).1 = .ok :=
  assign_unassign_roundtrip ⟨[⟨1, "A", "CA", 0⟩], []⟩
    ⟨[⟨1, "A", "CA", 0⟩], [⟨10, 1, "alice", 5, none⟩]⟩ 1 "alice" "bob"
    10 5 9 11 12 rfl

/-- C1 counterexample: the storage layer enforces no uniqueness over
active assignment rows (`idx_assignments_active` is a plain partial
index), so under the interleaving in which both racing
`AssignDeviceToUser` calls pass the application-level `IsDeviceAssigned`
check before either inserts, both calls succeed and the device ends with
two simultaneously-active assignment rows. -/
theorem assign_race_interleaved_both_succeed :
    (runSchedule ⟨[⟨1, "A", "CA", 0⟩], []⟩
        ⟨⟨1, "alice", 10, 5⟩, .start⟩ ⟨⟨1, "bob", 11, 6⟩, .start⟩
        [false, true, false, true, false, true]).2.1.pc = .finished .ok
    ∧ (runSchedule ⟨[⟨1, "A", "CA", 0⟩], []⟩
        ⟨⟨1, "alice", 10, 5⟩, .start⟩ ⟨⟨1, "bob", 11, 6⟩, .start⟩
        [false, true, false, true, false, true]).2.2.pc = .finished .ok
    ∧ countActive (runSchedule ⟨[⟨1, "A", "CA", 0⟩], []⟩
        ⟨⟨1, "alice", 10, 5⟩, .start⟩ ⟨⟨1, "bob", 11, 6⟩, .start⟩
        [false, true, false, true, false, true]).1 1 = 2 :=
  ⟨rfl, rfl, rfl⟩

/-- C1 (amended): when the two racing `AssignDeviceToUser` calls are
serialized — the guarantee the application-level check does give — exactly
one succeeds, the other observes the already-assigned error, and exactly
one active assignment row exists afterwards. -/
theorem assign_race_serialized (s : DBState) (d : Nat) (dev : Device)
    (u1 u2 : String) (id1 id2 n1 n2 : Nat)
    (hdev : getDeviceById s d = some dev)
    (hfree : countActive s d = 0) :
    (runSchedule s ⟨⟨d, u1, id1, n1⟩, .start⟩ ⟨⟨d, u2, id2, n2⟩, .start⟩
        [false, false, false, true, true, true]).2.1.pc = .finished .ok
    ∧ (runSchedule s ⟨⟨d, u1, id1, n1⟩, .start⟩ ⟨⟨d, u2, id2, n2⟩, .start⟩
        [false, false, false, true, true, true]).2.2.pc
        = .finished .errAlreadyAssigned
    ∧ countActive (runSchedule s ⟨⟨d, u1, id1, n1⟩, .start⟩
        ⟨⟨d, u2, id2, n2⟩, .start⟩
        [false, false, false, true, true, true]).1 d = 1 := by
  have hna : isDeviceAssigned s d = false :=
    (isDeviceAssigned_eq_false_iff s d).mpr hfree
  refine ⟨?_, ?_, ?_⟩ <;>
    simp [runSchedule, assignStep, hdev, hna, hfree,
      getDeviceById_createAssignment, isDeviceAssigned_createAssignment,
      countActive_createAssignment, Assignment.isActive]

/-- C1 witness: from a store holding only unassigned device 1, the
serialized schedule lets `alice` win and `bob` observe the
already-assigned error, with one active row left. -/
theorem assign_race_serialized_witness :
    (runSchedule ⟨[⟨1, "A", "CA", 0⟩], []⟩
        ⟨⟨1, "alice", 10, 5⟩, .start⟩ ⟨⟨1, "bob", 11, 6⟩, .start⟩
        [false, false, false, true, true, true]).2.1.pc = .finished .ok
    ∧ (runSchedule ⟨[⟨1, "A", "CA", 0⟩], []⟩
        ⟨⟨1, "alice", 10, 5⟩, .start⟩ ⟨⟨1, "bob", 11, 6⟩, .start⟩
        [false, false, false, true, true, true]).2.2.pc
        = .finished .errAlreadyAssigned
    ∧ countActive (runSchedule ⟨[⟨1, "A", "CA", 0⟩], []⟩
        ⟨⟨1, "alice", 10, 5⟩, .start⟩ ⟨⟨1, "bob", 11, 6⟩, .start⟩
        [false, false, false, true, true, true]).1 1 = 1 :=
  assign_race_serialized ⟨[⟨1, "A", "CA", 0⟩], []⟩ 1 ⟨1, "A", "CA", 0⟩
    "alice" "bob" 10 11 5 6 rfl rfl

end DeviceAssignment
